import Mathlib

/-!
Verification of the fami-rust NES emulator execution core against its
specification.  The Rust sources are shallowly embedded: 8-bit machine
integers become `Nat` with explicit `% 256` where the source wraps,
16-bit values use `% 65536`, flat memory is a function `Nat → Nat`, and
the function-pointer state dispatch of the CPU becomes an inductive tag.
Every definition follows the corresponding Rust item, which is named in
its doc comment.
-/

set_option maxRecDepth 8000

namespace FamiRust

/-- Flags bitmask CARRY (cpu.rs, bitflags Flags). -/
def F_CARRY : Nat := 0x01

/-- Flags bitmask ZERO (cpu.rs). -/
def F_ZERO : Nat := 0x02

/-- Flags bitmask INT_DISABLE (cpu.rs). -/
def F_INT_DISABLE : Nat := 0x04

/-- Flags bitmask DECIMAL (cpu.rs). -/
def F_DECIMAL : Nat := 0x08

/-- Flags bitmask BREAK (cpu.rs). -/
def F_BREAK : Nat := 0x10

/-- Flags bitmask RESERVED (cpu.rs). -/
def F_RESERVED : Nat := 0x20

/-- Flags bitmask OVERFLOW (cpu.rs). -/
def F_OVERFLOW : Nat := 0x40

/-- Flags bitmask NEGATIVE (cpu.rs). -/
def F_NEGATIVE : Nat := 0x80

/-- Bitwise complement of a flag mask within a u8, i.e. Rust `!flags.bits`
restricted to 8 bits. -/
def u8not (m : Nat) : Nat := 0xFF ^^^ m

/-- CPU register file (cpu.rs, struct Registers).  All fields are u8 in
the source except `pc`, which is u16. -/
structure Registers where
  a : Nat
  x : Nat
  y : Nat
  s : Nat
  p : Nat
  pc : Nat
deriving DecidableEq, Repr

/-- Well-formedness: each register holds a value of its machine width. -/
def Registers.Wf (r : Registers) : Prop :=
  r.a < 256 ∧ r.x < 256 ∧ r.y < 256 ∧ r.s < 256 ∧ r.p < 256 ∧ r.pc < 65536

instance (r : Registers) : Decidable r.Wf := by
  unfold Registers.Wf; infer_instance

/-- Registers::int_disabled (cpu.rs): `(p & INT_DISABLE) != 0`. -/
def Registers.int_disabled (r : Registers) : Bool :=
  decide ((r.p &&& F_INT_DISABLE) ≠ 0)

/-- Registers::flags_on (cpu.rs): `p |= flags`. -/
def Registers.flags_on (r : Registers) (flags : Nat) : Registers :=
  { r with p := r.p ||| flags }

/-- Registers::flags_off (cpu.rs): `p &= !flags`. -/
def Registers.flags_off (r : Registers) (flags : Nat) : Registers :=
  { r with p := r.p &&& u8not flags }

/-- Registers::change_negative_by_value (cpu.rs):
`p = (p & !NEGATIVE) | (val & NEGATIVE)`. -/
def Registers.change_negative_by_value (r : Registers) (val : Nat) : Registers :=
  { r with p := (r.p &&& u8not F_NEGATIVE) ||| (val &&& F_NEGATIVE) }

/-- Registers::change_zero_by_value (cpu.rs):
`p = (p & !ZERO) | (((val == 0) as u8) << 1)`. -/
def Registers.change_zero_by_value (r : Registers) (val : Nat) : Registers :=
  { r with p := (r.p &&& u8not F_ZERO) ||| ((if val = 0 then 1 else 0) <<< 1) }

/-- Registers::change_carry (cpu.rs): `p = (p & !CARRY) | (on as u8)`. -/
def Registers.change_carry (r : Registers) (b : Bool) : Registers :=
  { r with p := (r.p &&& u8not F_CARRY) ||| (if b then 1 else 0) }

/-- Registers::add_with_carry (cpu.rs): widen both operands and the carry
to 16 bits, add, report bit 8 as the new carry and keep the low 8 bits. -/
def add_with_carry (val1 val2 : Nat) (carry : Bool) : Nat × Bool :=
  let result : Nat := val1 + val2 + (if carry then 1 else 0)
  (result % 256, decide ((result &&& 0x0100) ≠ 0))

/-- Registers::a_add (cpu.rs): the ADC core.  Adds the operand and the
carry to A, then updates Carry, Overflow, Negative and Zero exactly in
the source order (Overflow is computed from the old A because `a` is
assigned last). -/
def Registers.a_add (r : Registers) (val : Nat) : Registers :=
  let carry := decide ((r.p &&& F_CARRY) ≠ 0)
  let rc := add_with_carry r.a val carry
  let result := rc.1
  let p1 := (r.p &&& u8not F_CARRY) ||| (if rc.2 then 1 else 0)
  let overflowed := decide (((r.a ^^^ result) &&& (val ^^^ result) &&& 0x80) ≠ 0)
  let p2 := (p1 &&& u8not F_OVERFLOW) ||| ((if overflowed then 1 else 0) <<< 6)
  let r1 := { r with p := p2 }
  let r2 := r1.change_negative_by_value result
  let r3 := r2.change_zero_by_value result
  { r3 with a := result }

/-- Registers::a_sub (cpu.rs): SBC is ADC of the bit-inverted operand. -/
def Registers.a_sub (r : Registers) (val : Nat) : Registers :=
  r.a_add (u8not (val % 256))

/-- Registers::cmp (cpu.rs): add the complement with carry forced on,
then update Carry, Negative and Zero but neither Overflow nor A. -/
def Registers.cmp (r : Registers) (val1 val2 : Nat) : Registers :=
  let rc := add_with_carry val1 (u8not (val2 % 256)) true
  let result := rc.1
  let r1 := { r with p := (r.p &&& u8not F_CARRY) ||| (if rc.2 then 1 else 0) }
  let r2 := r1.change_negative_by_value result
  r2.change_zero_by_value result

/-- Registers::a_set (cpu.rs): load A and refresh N and Z. -/
def Registers.a_set (r : Registers) (val : Nat) : Registers :=
  let r1 := { r with a := val }
  (r1.change_negative_by_value val).change_zero_by_value val

/-- Registers::x_set (cpu.rs): load X and refresh N and Z. -/
def Registers.x_set (r : Registers) (val : Nat) : Registers :=
  let r1 := { r with x := val }
  (r1.change_negative_by_value val).change_zero_by_value val

/-- Registers::y_set (cpu.rs): load Y and refresh N and Z. -/
def Registers.y_set (r : Registers) (val : Nat) : Registers :=
  let r1 := { r with y := val }
  (r1.change_negative_by_value val).change_zero_by_value val

/-- Type of interruption (cpu.rs, enum IntType). -/
inductive IntType where
  | none
  | reset
  | nmi
  | irq
  | brk
deriving DecidableEq, Repr

/-- Pending-interrupt slot (cpu.rs, struct Interrupt). -/
structure Interrupt where
  kind : IntType
  is_force_delayed : Bool
deriving DecidableEq, Repr

/-- Default for Interrupt (cpu.rs): empty slot, not delayed. -/
def Interrupt.default : Interrupt := ⟨IntType.none, false⟩

/-- The CPU's per-state step function pointer (cpu.rs field fn_step),
embedded as a tag: Cpu::fetch_step, Cpu::exec_step or Cpu::int_step. -/
inductive FnState where
  | fetchStep
  | execStep
  | intStep
deriving DecidableEq, Repr

/-- Transient per-instruction state (cpu/cpu_state.rs, struct TmpState).
The `last_cycle` field stands for `state.executer.last_cycle` as read by
Cpu::step: the currently executing instruction's dynamically adjusted
final cycle count (the Executer record holding it is referenced but not
present in this source snapshot, so only the one field the claims need
is carried). -/
structure TmpState where
  counter : Nat
  op_1 : Nat
  op_2 : Nat
  int : IntType
  last_cycle : Nat
deriving DecidableEq, Repr

/-- Default for TmpState (cpu/cpu_state.rs): zeroed counter and operands,
no interrupt. -/
def TmpState.default : TmpState := ⟨0, 0, 0, IntType.none, 0⟩

/-- Pointwise function update, the effect of one `ram[i] = data` store. -/
def fupd (m : Nat → Nat) (a v : Nat) : Nat → Nat :=
  fun i => if i = a then v else m i

/-- MemCon::write restricted to the RAM arms of write_to_dev (mem.rs):
an address at or below 0x1FFF is stored together with its three 2-KiB
mirror images `ram[0x0800+addr]`, `ram[0x1000+addr]`, `ram[0x1800+addr]`;
any other non-device address is stored directly.  The 0x2000-0x3FFF and
0x4014 device window is modelled separately by `MemCon` below; no
CPU-side claim touches it (stack accesses stay in 0x0100-0x01FF and
vector reads in 0xFFFA-0xFFFF). -/
def ram_write (ram : Nat → Nat) (addr data : Nat) : Nat → Nat :=
  if addr ≤ 0x1FFF then
    fupd (fupd (fupd (fupd ram (0x0000 + addr) data)
      (0x0800 + addr) data) (0x1000 + addr) data) (0x1800 + addr) data
  else
    fupd ram addr data

/-- The 6502 CPU (cpu.rs, struct Cpu).  `mem` is the flat RAM array of
the memory controller; `irq_is_brake` is the flag consulted by
Cpu::int_step cycle 1 to tell IRQ from BRK. -/
structure Cpu where
  mem : Nat → Nat
  clock_counter : Nat
  regs : Registers
  reset_occurred : Bool
  nmi_occurred : Bool
  irq_occurred : Bool
  int_polling_enabled : Bool
  fn_step : FnState
  int_requested : Interrupt
  state : TmpState
  irq_is_brake : Bool

/-- ADDR_STACK_UPPER (cpu.rs). -/
def ADDR_STACK_UPPER : Nat := 0x0100

/-- The address of the next stack access, `ADDR_STACK_UPPER | s`, as
computed by Cpu::set_to_stack and Cpu::peek_stack (cpu.rs). -/
def Cpu.stack_addr (c : Cpu) : Nat := ADDR_STACK_UPPER ||| c.regs.s

/-- Cpu::set_to_stack (cpu.rs): write at the stack address; S untouched. -/
def Cpu.set_to_stack (c : Cpu) (data : Nat) : Cpu :=
  { c with mem := ram_write c.mem c.stack_addr data }

/-- Cpu::dec_stack (cpu.rs): `s = s.wrapping_sub(1)`. -/
def Cpu.dec_stack (c : Cpu) : Cpu :=
  { c with regs := { c.regs with s := (c.regs.s + 255) % 256 } }

/-- Cpu::push_stack (cpu.rs): write first, then decrement S. -/
def Cpu.push_stack (c : Cpu) (data : Nat) : Cpu :=
  (c.set_to_stack data).dec_stack

/-- Cpu::inc_stack (cpu.rs): `s = s.wrapping_add(1)`. -/
def Cpu.inc_stack (c : Cpu) : Cpu :=
  { c with regs := { c.regs with s := (c.regs.s + 1) % 256 } }

/-- Cpu::peek_stack (cpu.rs): read at the stack address; S untouched. -/
def Cpu.peek_stack (c : Cpu) : Nat := c.mem c.stack_addr

/-- Cpu::pull_stack (cpu.rs): increment S first, then read. -/
def Cpu.pull_stack (c : Cpu) : Cpu × Nat :=
  let c1 := c.inc_stack
  (c1, c1.peek_stack)

/-- Cpu::fetch (cpu.rs): read the byte at PC and advance PC with wrap. -/
def Cpu.fetch (c : Cpu) : Cpu × Nat :=
  let data := c.mem c.regs.pc
  ({ c with regs := { c.regs with pc := (c.regs.pc + 1) % 65536 } }, data)

/-- Cpu::clear_all_int_trigger (cpu.rs). -/
def Cpu.clear_all_int_trigger (c : Cpu) : Cpu :=
  { c with reset_occurred := false, nmi_occurred := false,
           irq_occurred := false }

/-- Cpu::resolve_int_type (cpu.rs): priority Reset over NMI over IRQ;
Reset and NMI latches are cleared on resolution, the IRQ level is left
to the device.  The source ends in `unreachable!()`; the final arm below
is never taken because every caller has established that a latch is
asserted. -/
def Cpu.resolve_int_type (c : Cpu) : IntType × Cpu :=
  if c.reset_occurred then (IntType.reset, { c with reset_occurred := false })
  else if c.nmi_occurred then (IntType.nmi, { c with nmi_occurred := false })
  else if c.irq_occurred then (IntType.irq, c)
  else (IntType.none, c)

/-- Cpu::check_int (cpu.rs): the interrupt poll.  If any latch fires
(IRQ gated by the InterruptDisable flag), record the resolved kind in
the pending slot with the delay flag cleared. -/
def Cpu.check_int (c : Cpu) : Cpu :=
  if c.reset_occurred || c.nmi_occurred ||
      (!c.regs.int_disabled && c.irq_occurred) then
    let kc := c.resolve_int_type
    { kc.2 with int_requested := ⟨kc.1, false⟩ }
  else c

/-- Cpu::switch_state_int (cpu.rs): reset the transient state, remember
the pending kind in it, clear the slot, select int_step and disable
polling. -/
def Cpu.switch_state_int (c : Cpu) : Cpu :=
  { c with state := { TmpState.default with int := c.int_requested.kind },
           int_requested := Interrupt.default,
           fn_step := FnState.intStep,
           int_polling_enabled := false }

/-- Cpu::switch_state_fetch (cpu.rs): a non-empty pending slot routes to
the interrupt state instead, unless the force-delay flag is set, in
which case only the flag is cleared and fetching proceeds once more. -/
def Cpu.switch_state_fetch (c : Cpu) : Cpu :=
  if c.int_requested.kind ≠ IntType.none then
    if c.int_requested.is_force_delayed then
      let c1 := { c with int_requested :=
        { c.int_requested with is_force_delayed := false } }
      { c1 with state := TmpState.default, fn_step := FnState.fetchStep }
    else
      c.switch_state_int
  else
    { c with state := TmpState.default, fn_step := FnState.fetchStep }

/-- Cpu::switch_state_exec (cpu.rs): reset the transient state and select
exec_step.  (Called by int_step when the interrupt sequence completes.) -/
def Cpu.switch_state_exec (c : Cpu) : Cpu :=
  { c with state := TmpState.default, fn_step := FnState.execStep }

/-- Cpu::exec_finished (cpu.rs): the EXEC to FETCH transition taken by
every addressing template when its last cycle completes. -/
def Cpu.exec_finished (c : Cpu) : Cpu := c.switch_state_fetch

/-- Interrupt vector address ADDR_INT_NMI (cpu/cpu_state.rs). -/
def ADDR_INT_NMI : Nat := 0xFFFA

/-- Interrupt vector address ADDR_INT_RESET (cpu/cpu_state.rs). -/
def ADDR_INT_RESET : Nat := 0xFFFC

/-- Interrupt vector address ADDR_INT_IRQ (cpu/cpu_state.rs). -/
def ADDR_INT_IRQ : Nat := 0xFFFE

/-- util::make_addr (util.rs): `(high << 8) | low`. -/
def make_addr (high low : Nat) : Nat := (high <<< 8) ||| low

/-- Cpu::int_step (cpu/cpu_state.rs): the 7-cycle interrupt sequence.
Cycle 1 disables polling, sets InterruptDisable, resolves the asserted
trigger with priority Reset, NMI, then IRQ or BRK, and clears all
triggers.  Cycle 7 sets or clears Break, pushes PC and P unless the kind
is Reset (advancing PC once first for BRK), forces Break off, loads PC
from the vector for the kind, and returns to the execution state.  The
u16 additions wrap as in release builds; the `IntType.none` vector arm
stands for the source's panic and is unreachable whenever an interrupt
was actually taken. -/
def Cpu.int_step (c : Cpu) : Cpu :=
  if c.state.counter = 1 then
    let c := { c with int_polling_enabled := false }
    let c := { c with regs := c.regs.flags_on F_INT_DISABLE }
    let c :=
      if c.reset_occurred then
        { c with state := { c.state with int := IntType.reset } }
      else if c.nmi_occurred then
        { c with state := { c.state with int := IntType.nmi } }
      else if c.irq_occurred then
        if c.irq_is_brake then
          { c with state := { c.state with int := IntType.irq } }
        else
          { c with state := { c.state with int := IntType.brk } }
      else c
    c.clear_all_int_trigger
  else if c.state.counter = 7 then
    let c :=
      if c.state.int = IntType.brk then
        { c with regs := c.regs.flags_on F_BREAK }
      else
        { c with regs := c.regs.flags_off F_BREAK }
    let c :=
      if c.state.int ≠ IntType.reset then
        let c :=
          if c.state.int = IntType.brk then
            { c with regs := { c.regs with pc := (c.regs.pc + 1) % 65536 } }
          else c
        let c := c.push_stack ((c.regs.pc >>> 8) &&& 0x00FF)
        let c := c.push_stack (c.regs.pc &&& 0x00FF)
        c.push_stack c.regs.p
      else c
    let c := { c with regs := c.regs.flags_off F_BREAK }
    let vec_addr :=
      match c.state.int with
      | IntType.reset => ADDR_INT_RESET
      | IntType.nmi => ADDR_INT_NMI
      | IntType.irq => ADDR_INT_IRQ
      | IntType.brk => ADDR_INT_IRQ
      | IntType.none => ADDR_INT_IRQ
    let low := c.mem vec_addr
    let high := c.mem (vec_addr + 1)
    let c := { c with regs := { c.regs with pc := make_addr high low } }
    c.switch_state_exec
  else c

/-- The counter bumps at the top of Cpu::step (cpu.rs): the clock counter
and the per-state sub-cycle counter both advance, the latter as a u8. -/
def Cpu.bump (c : Cpu) : Cpu :=
  { c with clock_counter := c.clock_counter + 1,
           state := { c.state with counter := (c.state.counter + 1) % 256 } }

/-- The interrupt poll gate at the bottom of Cpu::step (cpu.rs): the
latches are consulted only when polling is enabled, the pending slot is
empty, and `executer.last_cycle - counter == 1` (u8 subtraction, which
wraps in release builds). -/
def Cpu.poll_gate (c : Cpu) : Cpu :=
  if c.int_polling_enabled &&
      decide (c.int_requested.kind = IntType.none) &&
      decide ((c.state.last_cycle % 256 + 256 - c.state.counter % 256) % 256 = 1) then
    c.check_int
  else c

/-- Cpu::step (cpu.rs): bump the counters, run the state's step function
(the function pointer `fn_step`, passed here explicitly as `f`), then
apply the interrupt poll gate. -/
def Cpu.step_with (f : Cpu → Cpu) (c : Cpu) : Cpu :=
  Cpu.poll_gate (f c.bump)

/-- One Cpu::step call while `fn_step` is Cpu::int_step. -/
def Cpu.step_int (c : Cpu) : Cpu := Cpu.step_with Cpu.int_step c

/-- Seven consecutive Cpu::step calls while `fn_step` is Cpu::int_step:
the full interrupt sequence as driven by the clock. -/
def Cpu.int_run7 (c : Cpu) : Cpu :=
  c.step_int.step_int.step_int.step_int.step_int.step_int.step_int

/-- Cpu::lsr_action (exec_core_g1.rs): shift right; the outgoing bit 0 is
OR-ed into P (`p |= to_carry`, so an already-set Carry is never cleared);
N and Z follow the shifted value, which is also returned. -/
def Cpu.lsr_action (c : Cpu) (val : Nat) : Cpu × Nat :=
  let to_carry := val &&& F_CARRY
  let val2 := val >>> 1
  let c := { c with regs := { c.regs with p := c.regs.p ||| to_carry } }
  let c := { c with regs := c.regs.change_negative_by_value val2 }
  let c := { c with regs := c.regs.change_zero_by_value val2 }
  (c, val2)

/-- Cpu::asl_action (exec_core_g1.rs): shift left.  The source computes
`val & 0b1000_0000 >> 7`, which by Rust precedence is
`val & (0b1000_0000 >> 7)`, i.e. `val & 1`, and OR-s it into P. -/
def Cpu.asl_action (c : Cpu) (val : Nat) : Cpu × Nat :=
  let to_carry := val &&& (0b10000000 >>> 7)
  let val2 := (val <<< 1) % 256
  let c := { c with regs := { c.regs with p := c.regs.p ||| to_carry } }
  let c := { c with regs := c.regs.change_negative_by_value val2 }
  let c := { c with regs := c.regs.change_zero_by_value val2 }
  (c, val2)

/-- Cpu::ror_action (exec_core_g1.rs): rotate right through Carry; the
incoming Carry lands in bit 7, the outgoing bit 0 is OR-ed into P. -/
def Cpu.ror_action (c : Cpu) (val : Nat) : Cpu × Nat :=
  let from_carry := (c.regs.p &&& F_CARRY) <<< 7
  let to_carry := val &&& F_CARRY
  let val2 := (val >>> 1) ||| from_carry
  let c := { c with regs := { c.regs with p := c.regs.p ||| to_carry } }
  let c := { c with regs := c.regs.change_negative_by_value val2 }
  let c := { c with regs := c.regs.change_zero_by_value val2 }
  (c, val2)

/-- Cpu::rol_action (exec_core_g1.rs): rotate left through Carry.  As in
asl_action, `val & 0b1000_0000 >> 7` parses as `val & 1`. -/
def Cpu.rol_action (c : Cpu) (val : Nat) : Cpu × Nat :=
  let from_carry := c.regs.p &&& F_CARRY
  let to_carry := val &&& (0b10000000 >>> 7)
  let val2 := ((val <<< 1) % 256) ||| from_carry
  let c := { c with regs := { c.regs with p := c.regs.p ||| to_carry } }
  let c := { c with regs := c.regs.change_negative_by_value val2 }
  let c := { c with regs := c.regs.change_zero_by_value val2 }
  (c, val2)

/-- Cpu::dec_action (exec_core_g1.rs). -/
def Cpu.dec_action (c : Cpu) (val : Nat) : Cpu × Nat :=
  let val2 := (val + 255) % 256
  let c := { c with regs := c.regs.change_negative_by_value val2 }
  let c := { c with regs := c.regs.change_zero_by_value val2 }
  (c, val2)

/-- Cpu::inc_action (exec_core_g1.rs). -/
def Cpu.inc_action (c : Cpu) (val : Nat) : Cpu × Nat :=
  let val2 := (val + 1) % 256
  let c := { c with regs := c.regs.change_negative_by_value val2 }
  let c := { c with regs := c.regs.change_zero_by_value val2 }
  (c, val2)

/-- Cpu::jsr_action (exec_core_g3.rs): the core itself does nothing. -/
def Cpu.jsr_action (c : Cpu) : Cpu × Nat := (c, 0)

/-- Cpu::rti_action (exec_core_g3.rs): the core itself does nothing. -/
def Cpu.rti_action (c : Cpu) : Cpu × Nat := (c, 0)

/-- Cpu::rts_action (exec_core_g3.rs): the core itself does nothing. -/
def Cpu.rts_action (c : Cpu) : Cpu × Nat := (c, 0)

/-- Cpu::php_action (exec_core_g3.rs): push the status register as it
is, `push_stack(p)`. -/
def Cpu.php_action (c : Cpu) : Cpu × Nat := (c.push_stack c.regs.p, 0)

/-- Cpu::plp_action (exec_core_g3.rs): set P to the byte under the stack
pointer as it is; per its comment, S has already been incremented by the
pull-stack template when the core runs. -/
def Cpu.plp_action (c : Cpu) : Cpu × Nat :=
  ({ c with regs := { c.regs with p := c.peek_stack } }, 0)

/-- Cpu::pha_action (exec_core_g3.rs): push A. -/
def Cpu.pha_action (c : Cpu) : Cpu × Nat := (c.push_stack c.regs.a, 0)

/-- Cpu::pla_action (exec_core_g3.rs): load A from the stack and refresh
N and Z. -/
def Cpu.pla_action (c : Cpu) : Cpu × Nat :=
  let c := { c with regs := { c.regs with a := c.peek_stack } }
  let c := { c with regs := c.regs.change_negative_by_value c.regs.a }
  let c := { c with regs := c.regs.change_zero_by_value c.regs.a }
  (c, 0)

/-- Cpu::dey_action (exec_core_g3.rs): decrement Y, flags from new Y. -/
def Cpu.dey_action (c : Cpu) : Cpu × Nat :=
  let c := { c with regs := { c.regs with y := (c.regs.y + 255) % 256 } }
  let c := { c with regs := c.regs.change_negative_by_value c.regs.y }
  let c := { c with regs := c.regs.change_zero_by_value c.regs.y }
  (c, 0)

/-- Cpu::tay_action (exec_core_g3.rs). -/
def Cpu.tay_action (c : Cpu) : Cpu × Nat :=
  let c := { c with regs := { c.regs with y := c.regs.a } }
  let c := { c with regs := c.regs.change_negative_by_value c.regs.y }
  let c := { c with regs := c.regs.change_zero_by_value c.regs.y }
  (c, 0)

/-- Cpu::iny_action (exec_core_g3.rs): the source stores `y + 1` into
register X (`self.regs.x = self.regs.y.wrapping_add(1)`) and derives N
and Z from the unchanged Y. -/
def Cpu.iny_action (c : Cpu) : Cpu × Nat :=
  let c := { c with regs := { c.regs with x := (c.regs.y + 1) % 256 } }
  let c := { c with regs := c.regs.change_negative_by_value c.regs.y }
  let c := { c with regs := c.regs.change_zero_by_value c.regs.y }
  (c, 0)

/-- Cpu::inx_action (exec_core_g3.rs): increment X, flags from new X. -/
def Cpu.inx_action (c : Cpu) : Cpu × Nat :=
  let c := { c with regs := { c.regs with x := (c.regs.x + 1) % 256 } }
  let c := { c with regs := c.regs.change_negative_by_value c.regs.x }
  let c := { c with regs := c.regs.change_zero_by_value c.regs.x }
  (c, 0)

/-- Cpu::clc_action (exec_core_g3.rs). -/
def Cpu.clc_action (c : Cpu) : Cpu × Nat := ({ c with regs := c.regs.flags_off F_CARRY }, 0)

/-- Cpu::sec_action (exec_core_g3.rs). -/
def Cpu.sec_action (c : Cpu) : Cpu × Nat := ({ c with regs := c.regs.flags_on F_CARRY }, 0)

/-- Cpu::cli_action (exec_core_g3.rs). -/
def Cpu.cli_action (c : Cpu) : Cpu × Nat := ({ c with regs := c.regs.flags_off F_INT_DISABLE }, 0)

/-- Cpu::sei_action (exec_core_g3.rs). -/
def Cpu.sei_action (c : Cpu) : Cpu × Nat := ({ c with regs := c.regs.flags_on F_INT_DISABLE }, 0)

/-- Cpu::tya_action (exec_core_g3.rs). -/
def Cpu.tya_action (c : Cpu) : Cpu × Nat :=
  let c := { c with regs := { c.regs with a := c.regs.y } }
  let c := { c with regs := c.regs.change_negative_by_value c.regs.a }
  let c := { c with regs := c.regs.change_zero_by_value c.regs.a }
  (c, 0)

/-- Cpu::clv_action (exec_core_g3.rs). -/
def Cpu.clv_action (c : Cpu) : Cpu × Nat := ({ c with regs := c.regs.flags_off F_OVERFLOW }, 0)

/-- Cpu::cld_action (exec_core_g3.rs). -/
def Cpu.cld_action (c : Cpu) : Cpu × Nat := ({ c with regs := c.regs.flags_off F_DECIMAL }, 0)

/-- Cpu::sed_action (exec_core_g3.rs). -/
def Cpu.sed_action (c : Cpu) : Cpu × Nat := ({ c with regs := c.regs.flags_on F_DECIMAL }, 0)

/-- Cpu::txa_action (exec_core_g3.rs). -/
def Cpu.txa_action (c : Cpu) : Cpu × Nat :=
  let c := { c with regs := { c.regs with a := c.regs.x } }
  let c := { c with regs := c.regs.change_negative_by_value c.regs.a }
  let c := { c with regs := c.regs.change_zero_by_value c.regs.a }
  (c, 0)

/-- Cpu::txs_action (exec_core_g3.rs): no flag effect. -/
def Cpu.txs_action (c : Cpu) : Cpu × Nat :=
  ({ c with regs := { c.regs with s := c.regs.x } }, 0)

/-- Cpu::tax_action (exec_core_g3.rs). -/
def Cpu.tax_action (c : Cpu) : Cpu × Nat :=
  let c := { c with regs := { c.regs with x := c.regs.a } }
  let c := { c with regs := c.regs.change_negative_by_value c.regs.x }
  let c := { c with regs := c.regs.change_zero_by_value c.regs.x }
  (c, 0)

/-- Cpu::tsx_action (exec_core_g3.rs). -/
def Cpu.tsx_action (c : Cpu) : Cpu × Nat :=
  let c := { c with regs := { c.regs with x := c.regs.s } }
  let c := { c with regs := c.regs.change_negative_by_value c.regs.x }
  let c := { c with regs := c.regs.change_zero_by_value c.regs.x }
  (c, 0)

/-- Cpu::dex_action (exec_core_g3.rs). -/
def Cpu.dex_action (c : Cpu) : Cpu × Nat :=
  let c := { c with regs := { c.regs with x := (c.regs.x + 255) % 256 } }
  let c := { c with regs := c.regs.change_negative_by_value c.regs.x }
  let c := { c with regs := c.regs.change_zero_by_value c.regs.x }
  (c, 0)

/-- Cpu::nop_action (exec_core_g3.rs). -/
def Cpu.nop_action (c : Cpu) : Cpu × Nat := (c, 0)

/-- The group-3 operation cores of is_core.rs (constants IS_JSR through
IS_NOP), named by mnemonic. -/
inductive G3Core where
  | jsr | rti | rts | php | plp | pha | pla | dey | tay | iny | inx
  | clc | sec | cli | sei | tya | clv | cld | sed | txa | txs | tax
  | tsx | dex | nop
deriving DecidableEq, Repr

/-- The fn_core carried by each group-3 IsCore constant (is_core.rs):
IS_INX points at Cpu::inx_action and IS_INY at Cpu::iny_action. -/
def G3Core.fn_core : G3Core → Cpu → Cpu × Nat
  | .jsr => Cpu.jsr_action
  | .rti => Cpu.rti_action
  | .rts => Cpu.rts_action
  | .php => Cpu.php_action
  | .plp => Cpu.plp_action
  | .pha => Cpu.pha_action
  | .pla => Cpu.pla_action
  | .dey => Cpu.dey_action
  | .tay => Cpu.tay_action
  | .iny => Cpu.iny_action
  | .inx => Cpu.inx_action
  | .clc => Cpu.clc_action
  | .sec => Cpu.sec_action
  | .cli => Cpu.cli_action
  | .sei => Cpu.sei_action
  | .tya => Cpu.tya_action
  | .clv => Cpu.clv_action
  | .cld => Cpu.cld_action
  | .sed => Cpu.sed_action
  | .txa => Cpu.txa_action
  | .txs => Cpu.txs_action
  | .tax => Cpu.tax_action
  | .tsx => Cpu.tsx_action
  | .dex => Cpu.dex_action
  | .nop => Cpu.nop_action

/-- decode_group3 (cpu/decoder.rs): the one-byte instruction decoder.
Note the source pairs opcode 0xC8 with IS_INX and opcode 0xE8 with
IS_INY. -/
def decode_group3 (opcode : Nat) : Option G3Core :=
  match opcode with
  | 0x20 => some .jsr
  | 0x40 => some .rti
  | 0x60 => some .rts
  | 0x08 => some .php
  | 0x28 => some .plp
  | 0x48 => some .pha
  | 0x68 => some .pla
  | 0x88 => some .dey
  | 0xA8 => some .tay
  | 0xC8 => some .inx
  | 0xE8 => some .iny
  | 0x18 => some .clc
  | 0x38 => some .sec
  | 0x58 => some .cli
  | 0x78 => some .sei
  | 0x98 => some .tya
  | 0xB8 => some .clv
  | 0xD8 => some .cld
  | 0xF8 => some .sed
  | 0x8A => some .txa
  | 0x9A => some .txs
  | 0xAA => some .tax
  | 0xBA => some .tsx
  | 0xCA => some .dex
  | 0xEA => some .nop
  | _ => none

/-- The group-3 rows of INSTRUCTION_SET (instruction.rs): the static
256-entry table maps opcode 0xC8 to the INY record (core IS_INY) and
0xE8 to the INX record (core IS_INX).  Rows holding group-1 and group-2
instructions are outside this fragment and are reported as none here. -/
def instruction_set_g3 (opcode : Nat) : Option G3Core :=
  match opcode with
  | 0x20 => some .jsr
  | 0x40 => some .rti
  | 0x60 => some .rts
  | 0x08 => some .php
  | 0x28 => some .plp
  | 0x48 => some .pha
  | 0x68 => some .pla
  | 0x88 => some .dey
  | 0xA8 => some .tay
  | 0xC8 => some .iny
  | 0xE8 => some .inx
  | 0x18 => some .clc
  | 0x38 => some .sec
  | 0x58 => some .cli
  | 0x78 => some .sei
  | 0x98 => some .tya
  | 0xB8 => some .clv
  | 0xD8 => some .cld
  | 0xF8 => some .sed
  | 0x8A => some .txa
  | 0x9A => some .txs
  | 0xAA => some .tax
  | 0xBA => some .tsx
  | 0xCA => some .dex
  | 0xEA => some .nop
  | _ => none

/-- Modelled from the spec: the pull-stack template Cpu::exec_pull_stack
(IS_TEMP_PULL_STACK), absent from this source snapshot, increments S
before invoking the core, per the spec's PLA/PLP row (dummies; increment
S; read via S) and the comment on Cpu::plp_action.  This definition is
the PHP-then-PLP composition: run the PHP core, then the pull template's
S increment, then the PLP core. -/
def Cpu.php_then_plp (c : Cpu) : Cpu :=
  ((c.php_action.1.inc_stack).plp_action).1

/-- A stack operation for the C9 access-trace semantics. -/
inductive StackOp where
  | push (data : Nat)
  | pull
deriving DecidableEq, Repr

/-- Run one stack operation and report the memory address it accessed:
a push writes at the pre-decrement stack address (Cpu::push_stack writes
through Cpu::set_to_stack before Cpu::dec_stack), a pull reads at the
post-increment stack address (Cpu::pull_stack increments first). -/
def Cpu.run_stack_op (c : Cpu) : StackOp → Cpu × Nat
  | .push d => (c.push_stack d, c.stack_addr)
  | .pull => ((c.pull_stack).1, (c.inc_stack).stack_addr)

/-- Run a list of stack operations, collecting every accessed address. -/
def Cpu.run_stack_ops (c : Cpu) : List StackOp → Cpu × List Nat
  | [] => (c, [])
  | op :: rest =>
    let pr := c.run_stack_op op
    let qr := pr.1.run_stack_ops rest
    (qr.1, pr.2 :: qr.2)

/-- CPU-visible PPU register index (ppu_databus.rs, enum PpuRegs with
derive FromPrimitive). -/
inductive PpuRegs where
  | Ctrl
  | Mask
  | Status
  | OamAddr
  | OamData
  | Scroll
  | PpuAddr
  | PpuData
deriving DecidableEq, Repr

/-- The FromPrimitive::from_usize conversion for PpuRegs: discriminants
0 through 7, anything else is None. -/
def PpuRegs.from_usize (n : Nat) : Option PpuRegs :=
  match n with
  | 0 => some .Ctrl
  | 1 => some .Mask
  | 2 => some .Status
  | 3 => some .OamAddr
  | 4 => some .OamData
  | 5 => some .Scroll
  | 6 => some .PpuAddr
  | 7 => some .PpuData
  | _ => none

/-- The PPU register file (ppu.rs, struct Registers). -/
structure PpuRegisters where
  ctrl : Nat
  mask : Nat
  status : Nat
  oam_addr : Nat
  oam_data : Nat
  scroll : Nat
  addr : Nat
  data : Nat
  oam_dma : Nat
  databus : Nat
deriving DecidableEq, Repr

/-- Registers::read_status (ppu.rs): the body is a stub that returns 0;
the latch clear and the vblank-bit clear are only TODO comments. -/
def PpuRegisters.read_status (_ : PpuRegisters) : Nat := 0

/-- The PPU state-function table selector (ppu/ppu_state.rs): the Ppu
holds a reference to either STATE_IDLING or STATE_READY. -/
inductive PpuMode where
  | idling
  | ready
deriving DecidableEq, Repr

/-- WARM_UP_TIME (ppu.rs): clocks before the registers start responding. -/
def WARM_UP_TIME : Nat := 29658 * 3

/-- The PPU (ppu.rs, struct Ppu), restricted to the fields the register
facade and warm-up logic touch. -/
structure Ppu where
  mode : PpuMode
  regs : PpuRegisters
  clock_counter : Nat
  reset_requested : Bool
deriving DecidableEq, Repr

/-- Ppu::step_idling (ppu/ppu_state.rs): leave the idling state for good
once the clock counter exceeds WARM_UP_TIME. -/
def Ppu.step_idling (p : Ppu) : Ppu :=
  if p.clock_counter > WARM_UP_TIME then { p with mode := PpuMode.ready }
  else p

/-- Ppu::step_ready (ppu/ppu_state.rs): does nothing. -/
def Ppu.step_ready (p : Ppu) : Ppu := p

/-- Ppu::step (ppu.rs): advance the clock counter, then run the current
state's step function.  The source's bool NMI return is constantly false
and is dropped here. -/
def Ppu.step (p : Ppu) : Ppu :=
  let p := { p with clock_counter := p.clock_counter + 1 }
  match p.mode with
  | PpuMode.idling => p.step_idling
  | PpuMode.ready => p.step_ready

/-- Ppu::write_idling (ppu/ppu_state.rs): during warm-up every write
updates the data-bus latch, but only OAMADDR and OAMDATA reach their
registers; CTRL, MASK, SCROLL, PPUADDR and PPUDATA writes are dropped
(and STATUS is read-only). -/
def Ppu.write_idling (p : Ppu) (reg : PpuRegs) (data : Nat) : Ppu :=
  let p := { p with regs := { p.regs with databus := data } }
  match reg with
  | .Status => p
  | .OamAddr => { p with regs := { p.regs with oam_addr := data } }
  | .OamData => { p with regs := { p.regs with oam_data := data } }
  | .PpuAddr => p
  | .Ctrl => p
  | .Mask => p
  | .Scroll => p
  | .PpuData => p

/-- Ppu::write_ready (ppu/ppu_state.rs): after warm-up every writable
register write takes effect (STATUS stays read-only); the data-bus latch
always updates. -/
def Ppu.write_ready (p : Ppu) (reg : PpuRegs) (data : Nat) : Ppu :=
  let p := { p with regs := { p.regs with databus := data } }
  match reg with
  | .Ctrl => { p with regs := { p.regs with ctrl := data } }
  | .Mask => { p with regs := { p.regs with mask := data } }
  | .Status => p
  | .OamAddr => { p with regs := { p.regs with oam_addr := data } }
  | .OamData => { p with regs := { p.regs with oam_data := data } }
  | .Scroll => { p with regs := { p.regs with scroll := data } }
  | .PpuAddr => { p with regs := { p.regs with addr := data } }
  | .PpuData => { p with regs := { p.regs with data := data } }

/-- Ppu::read_idling (ppu/ppu_state.rs): readable registers are read and
latched into the data bus; write-only registers return the latch. -/
def Ppu.read_idling (p : Ppu) (reg : PpuRegs) : Ppu × Nat :=
  let v :=
    match reg with
    | .Ctrl => p.regs.databus
    | .Mask => p.regs.databus
    | .Status => p.regs.status
    | .OamAddr => p.regs.databus
    | .OamData => p.regs.oam_data
    | .Scroll => p.regs.databus
    | .PpuAddr => p.regs.databus
    | .PpuData => p.regs.data
  ({ p with regs := { p.regs with databus := v } }, v)

/-- Ppu::read_ready (ppu/ppu_state.rs): like read_idling but the STATUS
read goes through Registers::read_status (the stub returning 0). -/
def Ppu.read_ready (p : Ppu) (reg : PpuRegs) : Ppu × Nat :=
  let v :=
    match reg with
    | .Ctrl => p.regs.databus
    | .Mask => p.regs.databus
    | .Status => p.regs.read_status
    | .OamAddr => p.regs.databus
    | .OamData => p.regs.oam_data
    | .Scroll => p.regs.databus
    | .PpuAddr => p.regs.databus
    | .PpuData => p.regs.data
  ({ p with regs := { p.regs with databus := v } }, v)

/-- The PpuDataBus write impl on Ppu (ppu.rs): dispatch through the
current state's write function. -/
def Ppu.writeReg (p : Ppu) (reg : PpuRegs) (data : Nat) : Ppu :=
  match p.mode with
  | PpuMode.idling => p.write_idling reg data
  | PpuMode.ready => p.write_ready reg data

/-- The PpuDataBus read impl on Ppu (ppu.rs): dispatch through the
current state's read function. -/
def Ppu.readReg (p : Ppu) (reg : PpuRegs) : Ppu × Nat :=
  match p.mode with
  | PpuMode.idling => p.read_idling reg
  | PpuMode.ready => p.read_ready reg

/-- The PPU immediately after Ppu::new and Ppu::power_on (ppu.rs): state
STATE_IDLING, zeroed registers, zero clock, reset requested by
signal_reset. -/
def Ppu.power_on : Ppu :=
  ⟨PpuMode.idling, ⟨0, 0, 0, 0, 0, 0, 0, 0, 0, 0⟩, 0, true⟩

/-- The CPU-side memory controller together with the PPU behind its
register facade (mem.rs, struct MemCon). -/
structure MemCon where
  ram : Nat → Nat
  ppu : Ppu

/-- The mirror replication loop of MemCon::write_ppu_register (mem.rs):
`for i in (0x2008..=0x3FF7).step_by(8) { ram[i + offset] = data }`, i.e.
every cell `j` with `j = i + offset` for some loop index `i`. -/
def mirror_fill (ram : Nat → Nat) (offset data : Nat) : Nat → Nat :=
  fun j =>
    if 0x2008 + offset ≤ j ∧ j ≤ 0x3FF0 + offset ∧ (j - offset) % 8 = 0 then
      data
    else ram j

/-- MemCon::write_ppu_register (mem.rs).  A write to 0x4014 goes to the
OAM-DMA register (DataBus::write_to_oamdma).  Otherwise the register
offset is computed as `addr & 0x0111` - the hexadecimal constant in the
source, whose neighbouring comment asks for the low three bits - the
offset is converted by FromPrimitive (whose `unwrap` panics on values
above 7, modelled as none), the byte is dispatched to the PPU register,
and the mirror windows are filled using the same offset. -/
def MemCon.write_ppu_register (m : MemCon) (addr data : Nat) : Option MemCon :=
  if addr = 0x4014 then
    some { m with ppu := { m.ppu with regs := { m.ppu.regs with oam_dma := data } } }
  else
    let offset := addr &&& 0x0111
    match PpuRegs.from_usize (offset &&& 0x0111) with
    | Option.none => none
    | Option.some reg =>
      let m1 := { m with ppu := m.ppu.writeReg reg data }
      some { m1 with ram := mirror_fill m1.ram offset data }

/-- MemCon::read_ppu_register (mem.rs): same offset computation as the
write path; a read of 0x4014 returns the OAM-DMA register directly. -/
def MemCon.read_ppu_register (m : MemCon) (addr : Nat) : Option (MemCon × Nat) :=
  if addr = 0x4014 then
    some (m, m.ppu.regs.oam_dma)
  else
    let offset := addr &&& 0x0111
    match PpuRegs.from_usize (offset &&& 0x0111) with
    | Option.none => none
    | Option.some reg =>
      let pr := m.ppu.readReg reg
      some ({ m with ppu := pr.1 }, pr.2)

/-- MemCon::write (mem.rs): RAM below 0x2000 is written with its three
mirrors (write_to_dev first arm), the PPU window 0x2000-0x3FFF and
0x4014 dispatch to write_ppu_register, anything else lands in flat RAM. -/
def MemCon.write (m : MemCon) (addr data : Nat) : Option MemCon :=
  if addr ≤ 0x1FFF then
    some { m with ram := ram_write m.ram addr data }
  else if (0x2000 ≤ addr ∧ addr ≤ 0x3FFF) ∨ addr = 0x4014 then
    m.write_ppu_register addr data
  else
    some { m with ram := fupd m.ram addr data }

/-- MemCon::read (mem.rs): the PPU window dispatches to
read_ppu_register, everything else reads flat RAM. -/
def MemCon.read (m : MemCon) (addr : Nat) : Option (MemCon × Nat) :=
  if (0x2000 ≤ addr ∧ addr ≤ 0x3FFF) ∨ addr = 0x4014 then
    m.read_ppu_register addr
  else
    some (m, m.ram addr)

section TestBitHelpers

/-- Bit values of the mask constants appearing in the flag updates. -/
theorem tbc :
    Nat.testBit 254 0 = false ∧ Nat.testBit 254 1 = true ∧
    Nat.testBit 254 6 = true ∧ Nat.testBit 254 7 = true ∧
    Nat.testBit 253 0 = true ∧ Nat.testBit 253 1 = false ∧
    Nat.testBit 253 6 = true ∧ Nat.testBit 253 7 = true ∧
    Nat.testBit 191 0 = true ∧ Nat.testBit 191 1 = true ∧
    Nat.testBit 191 6 = false ∧ Nat.testBit 191 7 = true ∧
    Nat.testBit 127 0 = true ∧ Nat.testBit 127 1 = true ∧
    Nat.testBit 127 6 = true ∧ Nat.testBit 127 7 = false ∧
    Nat.testBit 128 0 = false ∧ Nat.testBit 128 1 = false ∧
    Nat.testBit 128 6 = false ∧ Nat.testBit 128 7 = true ∧
    Nat.testBit 64 0 = false ∧ Nat.testBit 64 1 = false ∧
    Nat.testBit 64 6 = true ∧ Nat.testBit 64 7 = false ∧
    Nat.testBit 2 0 = false ∧ Nat.testBit 2 1 = true ∧
    Nat.testBit 2 6 = false ∧ Nat.testBit 2 7 = false ∧
    Nat.testBit 1 0 = true ∧ Nat.testBit 1 1 = false ∧
    Nat.testBit 1 6 = false ∧ Nat.testBit 1 7 = false := by decide

/-- Numeric values of the complemented flag masks. -/
theorem u8not_vals :
    u8not F_CARRY = 254 ∧ u8not F_ZERO = 253 ∧
    u8not F_OVERFLOW = 191 ∧ u8not F_NEGATIVE = 127 ∧
    u8not 1 = 254 ∧ u8not 2 = 253 ∧ u8not 64 = 191 ∧ u8not 128 = 127 := by
  decide

/-- Shift-left literals appearing in the flag updates. -/
theorem sl_vals :
    (1 : Nat) <<< 1 = 2 ∧ (0 : Nat) <<< 1 = 0 ∧
    (1 : Nat) <<< 6 = 64 ∧ (0 : Nat) <<< 6 = 0 := by decide

/-- Testing whether a power-of-two masked value is nonzero is exactly
reading the corresponding bit. -/
theorem decide_and_pow_ne (p i : Nat) :
    decide ((p &&& 2 ^ i) ≠ 0) = p.testBit i := by
  have h := Nat.and_two_pow p i
  cases hb : p.testBit i
  · simp [hb] at h
    simp [h]
  · simp [hb] at h
    simp [h]

/-- Special case of `decide_and_pow_ne` for bit 0, as used by the carry
input of `Registers::a_add`. -/
theorem decide_and_one (p : Nat) : decide ((p &&& 1) ≠ 0) = p.testBit 0 := by
  simp only [Nat.and_one_is_mod, ne_eq, Nat.testBit_zero]
  rcases Nat.mod_two_eq_zero_or_one p with h | h <;> simp [h]

/-- Special case of `decide_and_pow_ne` for bit 8, the carry out of the
widened 16-bit sum. -/
theorem decide_and_256 (s : Nat) : decide ((s &&& 256) ≠ 0) = s.testBit 8 := by
  have h := decide_and_pow_ne s 8
  norm_num at h
  simp only [ne_eq, decide_not, h, Bool.not_not]

end TestBitHelpers

/-- C2: for every well-formed register file and operand byte, the ADC
core `Registers::a_add` stores the low 8 bits of `A + operand + Carry`
in A, sets the Carry flag to the bit-8 carry out of the 16-bit sum, sets
Overflow iff `((old A XOR result) AND (operand XOR result) AND 0x80) != 0`,
sets Negative to bit 7 of the result and Zero iff the result is zero,
and leaves X, Y, S and PC untouched; and in the concrete spec scenario,
ADC immediate 0x50 from A = 0x50 with Carry clear yields A = 0xA0 with
N = 1, V = 1, C = 0, Z = 0. -/
theorem c2_adc_core (r : Registers) (val : Nat) :
    (let sum := r.a + val + (if r.p.testBit 0 then 1 else 0)
     let res := sum % 256
     let r2 := r.a_add val
     r2.a = res ∧
     r2.p.testBit 0 = sum.testBit 8 ∧
     r2.p.testBit 6 =
        decide (((r.a ^^^ res) &&& (val ^^^ res) &&& 0x80) ≠ 0) ∧
     r2.p.testBit 7 = res.testBit 7 ∧
     r2.p.testBit 1 = decide (res = 0) ∧
     r2.x = r.x ∧ r2.y = r.y ∧ r2.s = r.s ∧ r2.pc = r.pc) ∧
    (let rex := Registers.a_add ⟨0x50, 0, 0, 0xFD, 0x24, 0xC000⟩ 0x50
     rex.a = 0xA0 ∧ rex.p.testBit 7 = true ∧ rex.p.testBit 6 = true ∧
     rex.p.testBit 0 = false ∧ rex.p.testBit 1 = false) := by
  constructor
  · refine ⟨?_, ?_, ?_, ?_, ?_, rfl, rfl, rfl, rfl⟩
    all_goals
      simp only [Registers.a_add, add_with_carry,
        Registers.change_negative_by_value, Registers.change_zero_by_value,
        F_CARRY, decide_and_one, decide_and_256, u8not_vals, sl_vals]
    all_goals split_ifs
    all_goals
      try simp_all [Nat.testBit_lor, Nat.testBit_land, tbc, sl_vals,
        u8not_vals, F_NEGATIVE, F_ZERO, F_OVERFLOW]
  · decide

/-- C3: the claim that opcode 0xC8 increments Y (leaving A, X, S alone,
with N and Z from the incremented result) fails on the code: the
INSTRUCTION_SET row for 0xC8 carries the IS_INY core, whose action
Cpu::iny_action stores `Y + 1` into register X and computes N and Z from
the unchanged Y, while the group-3 decoder additionally swaps the INX
and INY cores between opcodes 0xC8 and 0xE8.  Evaluated at Y = 0, X = 5:
the code leaves Y = 0, sets X = 1 and raises Z; the claim requires
Y = 1, X = 5 and Z clear.  Cpu::inx_action itself is as claimed. -/
theorem c3_iny_stores_into_x :
    (let c : Cpu := ⟨fun _ => 0, 0, ⟨9, 5, 0, 0xFD, 0, 0⟩, false, false,
       false, false, FnState.fetchStep, Interrupt.default, TmpState.default,
       false⟩
     let r := (c.iny_action).1
     r.regs.y = 0 ∧ r.regs.x = 1 ∧ r.regs.a = 9 ∧
     r.regs.p.testBit 1 = true ∧
     ((c.inx_action).1).regs.x = 6 ∧ ((c.inx_action).1).regs.y = 0 ∧
     ((c.inx_action).1).regs.p.testBit 1 = false) ∧
    instruction_set_g3 0xC8 = some G3Core.iny ∧
    instruction_set_g3 0xE8 = some G3Core.inx ∧
    decode_group3 0xC8 = some G3Core.inx ∧
    decode_group3 0xE8 = some G3Core.iny := by
  decide

/-- C4: the claim that the shift cores set Carry to the outgoing bit
(bit 7 for ASL/ROL, bit 0 for LSR/ROR), clearing it when that bit is 0,
fails on the code.  Cpu::asl_action and Cpu::rol_action compute the
carry as `val & (0b1000_0000 >> 7) = val & 1` (bit 0, a precedence
slip), and all four cores only OR the carry into P, never clearing it:
ASL of 0x80 with Carry clear leaves Carry 0 where the claim needs 1, ASL
of 0x01 sets Carry where the claim needs 0, and LSR/ROR of 0x02 with
Carry set keep Carry where the claim needs it cleared.  The ROR carry-in
(old Carry into bit 7 of the result) does work. -/
theorem c4_shift_carry_bug :
    (let c0 : Cpu := ⟨fun _ => 0, 0, ⟨0, 0, 0, 0, 0, 0⟩, false, false,
       false, false, FnState.fetchStep, Interrupt.default, TmpState.default,
       false⟩
     ((c0.asl_action 0x80).1.regs.p.testBit 0 = false) ∧
     ((c0.asl_action 0x80).2 = 0) ∧
     ((c0.asl_action 0x01).1.regs.p.testBit 0 = true) ∧
     ((c0.rol_action 0x80).1.regs.p.testBit 0 = false) ∧
     ((c0.rol_action 0x01).1.regs.p.testBit 0 = true)) ∧
    (let c1 : Cpu := ⟨fun _ => 0, 0, ⟨0, 0, 0, 0, 1, 0⟩, false, false,
       false, false, FnState.fetchStep, Interrupt.default, TmpState.default,
       false⟩
     ((c1.lsr_action 0x02).1.regs.p.testBit 0 = true) ∧
     ((c1.lsr_action 0x02).2 = 1) ∧
     ((c1.ror_action 0x02).1.regs.p.testBit 0 = true) ∧
     ((c1.ror_action 0x02).2 = 0x81)) := by
  decide

/-- C5 counterexample: PHP followed by PLP restores P exactly.  With
P = 0x10 (Break set) the claim forces Break low on the pull, demanding
0x00 afterwards, but the code restores 0x10; with P = 0x00 the claim
demands the pushed image 0x10 (Break forced high), but the code pushes
0x00. -/
theorem c5_php_plp_cex :
    (let c : Cpu := ⟨fun _ => 0, 0, ⟨0, 0, 0, 0xFD, 0x10, 0⟩, false, false,
       false, false, FnState.fetchStep, Interrupt.default, TmpState.default,
       false⟩
     (c.php_then_plp).regs.p = 0x10 ∧
     (c.php_then_plp).regs.p ≠ c.regs.p &&& u8not F_BREAK) ∧
    (let c2 : Cpu := ⟨fun _ => 0, 0, ⟨0, 0, 0, 0xFD, 0x00, 0⟩, false, false,
       false, false, FnState.fetchStep, Interrupt.default, TmpState.default,
       false⟩
     ((c2.php_action).1).mem c2.stack_addr = 0x00 ∧
     ((c2.php_action).1).mem c2.stack_addr ≠ (c2.regs.p ||| F_BREAK)) := by
  decide

/-- The stack address is plain addition for an in-range stack pointer. -/
theorem stack_addr_add (s : Nat) (hs : s < 256) :
    ADDR_STACK_UPPER ||| s = 256 + s := by
  have h : ∀ t : Nat, t < 256 → 0x0100 ||| t = 256 + t := by decide
  simpa [ADDR_STACK_UPPER] using h s hs

/-- Decrement then increment of the 8-bit stack pointer is the identity. -/
theorem dec_inc_s (s : Nat) (hs : s < 256) :
    ((s + 255) % 256 + 1) % 256 = s := by
  have h : ∀ t : Nat, t < 256 → ((t + 255) % 256 + 1) % 256 = t := by decide
  exact h s hs

/-- Reading back the cell just written by the mirrored RAM write returns
the written byte. -/
theorem ram_write_read_self (m : Nat → Nat) (addr v : Nat)
    (h : addr ≤ 0x1FFF) : ram_write m addr v addr = v := by
  simp only [ram_write, if_pos h, fupd]
  split_ifs <;> first | rfl | omega

/-- C5 amended: PHP pushes P unchanged (Cpu::php_action pushes `p` as it
is, without forcing Break high) and PLP restores exactly the pulled
byte (Cpu::plp_action does not force Break low), so PHP followed by PLP
restores P verbatim and leaves S where it was. -/
theorem c5_php_plp_roundtrip (c : Cpu) (hs : c.regs.s < 256) :
    (c.php_then_plp).regs.p = c.regs.p ∧
    (c.php_then_plp).regs.s = c.regs.s ∧
    ((c.php_action).1).mem c.stack_addr = c.regs.p := by
  have haddr := stack_addr_add c.regs.s hs
  have hsi := dec_inc_s c.regs.s hs
  have hread : ram_write c.mem (256 + c.regs.s) c.regs.p (256 + c.regs.s)
      = c.regs.p :=
    ram_write_read_self c.mem _ c.regs.p (by omega)
  refine ⟨?_, ?_, ?_⟩ <;>
    simp only [Cpu.php_then_plp, Cpu.php_action, Cpu.plp_action,
      Cpu.push_stack, Cpu.set_to_stack, Cpu.dec_stack, Cpu.inc_stack,
      Cpu.peek_stack, Cpu.stack_addr, hsi, haddr, hread]

/-- Witness for C5: the round-trip instantiated at a concrete state. -/
theorem c5_php_plp_roundtrip_witness :
    (Cpu.php_then_plp ⟨fun _ => 0, 0, ⟨1, 2, 3, 0xFD, 0xB5, 0⟩, false,
        false, false, false, FnState.fetchStep, Interrupt.default,
        TmpState.default, false⟩).regs.p = 0xB5 := by
  exact (c5_php_plp_roundtrip ⟨fun _ => 0, 0, ⟨1, 2, 3, 0xFD, 0xB5, 0⟩,
    false, false, false, false, FnState.fetchStep, Interrupt.default,
    TmpState.default, false⟩ (by decide)).1

/-- C6 counterexample: running the 7-cycle interrupt sequence with the
Reset trigger asserted from S = 0xFD leaves S = 0xFD; the claim demands
S decremented by exactly 3, i.e. 0xFA.  (The vector load into PC does
work: PC becomes 0x1234 from the bytes at 0xFFFC/0xFFFD.) -/
theorem c6_reset_leaves_s_cex :
    (let c : Cpu := ⟨(fun a => if a = 0xFFFC then 0x34
        else if a = 0xFFFD then 0x12 else 0), 0,
       ⟨0, 0, 0, 0xFD, 0x24, 0x8000⟩, true, false, false, false,
       FnState.intStep, Interrupt.default, TmpState.default, false⟩
     (c.int_run7).regs.s = 0xFD ∧
     (c.int_run7).regs.s ≠ (c.regs.s + 256 - 3) % 256 ∧
     (c.int_run7).regs.pc = 0x1234) := by
  decide

/-- C6 amended: for every CPU state entering the interrupt sequence with
the Reset trigger asserted, the 7-cycle sequence performs no memory
write at all - in particular every byte of the stack region
0x0100-0x01FF is untouched - leaves the stack pointer S unchanged (no
decrement by 3), and loads PC from the vector at 0xFFFC/0xFFFD. -/
theorem c6_reset_no_stack_write (c : Cpu) (hr : c.reset_occurred = true)
    (hc : c.state.counter = 0) :
    (∀ a, 0x0100 ≤ a → a ≤ 0x01FF → (c.int_run7).mem a = c.mem a) ∧
    (c.int_run7).regs.s = c.regs.s ∧
    (c.int_run7).regs.pc = make_addr (c.mem 0xFFFD) (c.mem 0xFFFC) := by
  simp [Cpu.int_run7, Cpu.step_int, Cpu.step_with, Cpu.bump, Cpu.int_step,
    Cpu.poll_gate, Cpu.clear_all_int_trigger, Cpu.switch_state_exec,
    Registers.flags_on, Registers.flags_off, ADDR_INT_RESET, hr, hc]

/-- Witness for C6: the amended statement at the counterexample state. -/
theorem c6_reset_no_stack_write_witness :
    (Cpu.int_run7 ⟨(fun a => if a = 0xFFFC then 0x34
        else if a = 0xFFFD then 0x12 else 0), 0,
       ⟨0, 0, 0, 0xFD, 0x24, 0x8000⟩, true, false, false, false,
       FnState.intStep, Interrupt.default, TmpState.default,
       false⟩).regs.s = 0xFD := by
  have h := c6_reset_no_stack_write ⟨(fun a => if a = 0xFFFC then 0x34
      else if a = 0xFFFD then 0x12 else 0), 0,
    ⟨0, 0, 0, 0xFD, 0x24, 0x8000⟩, true, false, false, false,
    FnState.intStep, Interrupt.default, TmpState.default, false⟩ rfl rfl
  exact h.2.1

/-- C7: the claim that a CPU write in 0x2000-0x3FFF dispatches to the
PPU register `addr & 0x0007` fails on the code.
MemCon::write_ppu_register masks with the hexadecimal constant 0x0111
(its own comment asks for the low three bits): a write to 0x2004 lands
in register 0 (PPUCTRL) instead of register 4 (OAMDATA), a write to
0x2010 produces offset 16, on which the FromPrimitive conversion's
`unwrap` panics, and the mirror replication leaves the original window
cell 0x2004 untouched. -/
theorem c7_ppu_register_offset_bug :
    ((0x2004 : Nat) &&& 0x0111) = 0 ∧
    ((0x2004 : Nat) &&& 0x0007) = 4 ∧
    (let m : MemCon := ⟨fun _ => 0,
       ⟨PpuMode.ready, ⟨0, 0, 0, 0, 0, 0, 0, 0, 0, 0⟩, 200000, false⟩⟩
     ((m.write_ppu_register 0x2004 0xAB).map
        (fun m2 => m2.ppu.regs.ctrl) = some 0xAB) ∧
     ((m.write_ppu_register 0x2004 0xAB).map
        (fun m2 => m2.ppu.regs.oam_data) = some 0) ∧
     (m.write_ppu_register 0x2010 0x55).isNone = true ∧
     ((m.write 0x2004 0xAB).map
        (fun m2 => m2.ppu.regs.ctrl) = some 0xAB) ∧
     ((m.write_ppu_register 0x2004 0xAB).map
        (fun m2 => m2.ram 0x2004) = some 0)) := by
  decide

/-- C8: the claim that reading 0x2002 returns the PPU status byte and
clears the vblank bit and the write latch fails on the code:
Registers::read_status is a stub that returns 0 (the clears are only
TODO comments), so a ready-state status read returns 0 and leaves the
status byte with bit 7 still set; moreover the bus maps address 0x2002
to register index `0x2002 & 0x0111 = 0` (PPUCTRL), whose read returns
the data-bus latch, not the status register. -/
theorem c8_read_status_stub :
    (let p : Ppu := ⟨PpuMode.ready, ⟨0, 0, 0x80, 0, 0, 0, 0, 0, 0, 0xAB⟩,
       200000, false⟩
     (p.readReg PpuRegs.Status).2 = 0 ∧
     ((p.readReg PpuRegs.Status).1).regs.status = 0x80 ∧
     PpuRegisters.read_status ⟨0, 0, 0x80, 0, 0, 0, 0, 0, 0, 0xAB⟩ = 0) ∧
    ((0x2002 : Nat) &&& 0x0111) = 0 ∧
    (let m : MemCon := ⟨fun _ => 0,
       ⟨PpuMode.ready, ⟨0, 0, 0x80, 0, 0, 0, 0, 0, 0, 0xAB⟩, 200000, false⟩⟩
     ((m.read 0x2002).map Prod.snd = some 0xAB) ∧
     ((m.read 0x2002).map (fun pr => pr.1.ppu.regs.status) = some 0x80)) := by
  decide

/-- Every address accessed along a sequence of stack operations stays in
the stack page, and the stack pointer stays an 8-bit value. -/
theorem run_stack_ops_bounds (ops : List StackOp) :
    ∀ c : Cpu, c.regs.s < 256 →
      (∀ a ∈ (c.run_stack_ops ops).2, 0x0100 ≤ a ∧ a ≤ 0x01FF) ∧
      ((c.run_stack_ops ops).1).regs.s < 256 := by
  induction ops with
  | nil =>
    intro c hs
    refine ⟨?_, hs⟩
    intro a ha
    simp [Cpu.run_stack_ops] at ha
  | cons op rest ih =>
    intro c hs
    have hs1 : ((c.run_stack_op op).1).regs.s < 256 := by
      cases op <;>
        simp [Cpu.run_stack_op, Cpu.push_stack, Cpu.set_to_stack,
          Cpu.dec_stack, Cpu.pull_stack, Cpu.inc_stack] <;>
        exact Nat.mod_lt _ (by norm_num)
    have haddr : 0x0100 ≤ (c.run_stack_op op).2 ∧
        (c.run_stack_op op).2 ≤ 0x01FF := by
      cases op with
      | push d =>
        have h := stack_addr_add c.regs.s hs
        simp [Cpu.run_stack_op, Cpu.stack_addr] at h ⊢
        omega
      | pull =>
        have hs2 : (c.inc_stack).regs.s < 256 := by
          simp [Cpu.inc_stack]
          exact Nat.mod_lt _ (by norm_num)
        have h := stack_addr_add (c.inc_stack).regs.s hs2
        simp [Cpu.run_stack_op, Cpu.stack_addr, Cpu.inc_stack] at h ⊢
        omega
    have ihh := ih _ hs1
    refine ⟨?_, ?_⟩
    · intro a ha
      have hcons : (c.run_stack_ops (op :: rest)).2 =
          (c.run_stack_op op).2 ::
            (((c.run_stack_op op).1).run_stack_ops rest).2 := rfl
      rw [hcons] at ha
      rcases List.mem_cons.mp ha with h1 | h2
      · rw [h1]; exact haddr
      · exact ihh.1 a h2
    · have hfst : (c.run_stack_ops (op :: rest)).1 =
          (((c.run_stack_op op).1).run_stack_ops rest).1 := rfl
      rw [hfst]; exact ihh.2

/-- C9: for every sequence of push and pull operations from a state with
an 8-bit stack pointer, every accessed address lies in 0x0100-0x01FF
(always `0x0100 | S`), the stack pointer remains 8-bit, a push writes
its byte at the pre-decrement address `0x0100 | S` before S wraps down
by one, and a pull wraps S up by one before reading at the new
`0x0100 | S`. -/
theorem c9_stack_discipline (c : Cpu) (ops : List StackOp)
    (hs : c.regs.s < 256) :
    (∀ a ∈ (c.run_stack_ops ops).2, 0x0100 ≤ a ∧ a ≤ 0x01FF) ∧
    ((c.run_stack_ops ops).1).regs.s < 256 ∧
    (∀ d, (c.push_stack d).mem c.stack_addr = d ∧
          (c.push_stack d).regs.s = (c.regs.s + 255) % 256) ∧
    (c.pull_stack).2 = c.mem ((c.inc_stack).stack_addr) ∧
    (c.pull_stack).1.regs.s = (c.regs.s + 1) % 256 := by
  obtain ⟨h1, h2⟩ := run_stack_ops_bounds ops c hs
  have haddr := stack_addr_add c.regs.s hs
  refine ⟨h1, h2, ?_, rfl, rfl⟩
  intro d
  constructor
  · simp only [Cpu.push_stack, Cpu.set_to_stack, Cpu.dec_stack,
      Cpu.stack_addr, haddr]
    exact ram_write_read_self c.mem _ d (by omega)
  · rfl

/-- Witness for C9: a push-then-pull trace from a concrete state. -/
theorem c9_stack_discipline_witness :
    ((Cpu.run_stack_ops ⟨fun _ => 0, 0, ⟨0, 0, 0, 0xFD, 0x24, 0⟩, false,
        false, false, false, FnState.fetchStep, Interrupt.default,
        TmpState.default, false⟩
      [StackOp.push 0x42, StackOp.pull]).1).regs.s < 256 ∧
    (Cpu.push_stack ⟨fun _ => 0, 0, ⟨0, 0, 0, 0xFD, 0x24, 0⟩, false,
        false, false, false, FnState.fetchStep, Interrupt.default,
        TmpState.default, false⟩ 0x42).mem
      (Cpu.stack_addr ⟨fun _ => 0, 0, ⟨0, 0, 0, 0xFD, 0x24, 0⟩, false,
        false, false, false, FnState.fetchStep, Interrupt.default,
        TmpState.default, false⟩) = 0x42 := by
  have h := c9_stack_discipline ⟨fun _ => 0, 0, ⟨0, 0, 0, 0xFD, 0x24, 0⟩,
    false, false, false, false, FnState.fetchStep, Interrupt.default,
    TmpState.default, false⟩ [StackOp.push 0x42, StackOp.pull] (by decide)
  exact ⟨h.2.1, (h.2.2.1 0x42).1⟩

/-- During the whole warm-up window the powered-on PPU stays in the
idling state, with the clock counter equal to the number of elapsed
ticks. -/
theorem ppu_idling_upto (n : Nat) (hn : n ≤ WARM_UP_TIME) :
    (Ppu.step^[n] Ppu.power_on).mode = PpuMode.idling ∧
    (Ppu.step^[n] Ppu.power_on).clock_counter = n := by
  induction n with
  | zero => exact ⟨rfl, rfl⟩
  | succ k ih =>
    have hk : k ≤ WARM_UP_TIME := Nat.le_of_succ_le hn
    obtain ⟨hm, hc⟩ := ih hk
    have hgt : ¬ (k + 1 > WARM_UP_TIME) := by omega
    rw [Function.iterate_succ_apply']
    constructor <;> simp [Ppu.step, Ppu.step_idling, hm, hc, hgt]

/-- A PPU that is still idling with its clock at the warm-up bound
switches to the ready state on the next step. -/
theorem ppu_ready_transition (p : Ppu) (hm : p.mode = PpuMode.idling)
    (hc : p.clock_counter = WARM_UP_TIME) :
    (p.step).mode = PpuMode.ready := by
  have hgt : WARM_UP_TIME + 1 > WARM_UP_TIME := by omega
  simp [Ppu.step, Ppu.step_idling, hm, hc, hgt]

/-- C10: after power-on the PPU ignores CTRL, MASK, SCROLL, PPUADDR and
PPUDATA writes (only the data-bus latch updates) while OAMADDR and
OAMDATA writes take effect, for all of the first 29658*3 clock ticks:
the state stays idling through tick 29658*3, switches to ready on the
first tick whose count exceeds 29658*3, the ready state is permanent,
and in it every writable register write takes effect. -/
theorem c10_warm_up :
    (∀ n, n ≤ WARM_UP_TIME →
      (Ppu.step^[n] Ppu.power_on).mode = PpuMode.idling) ∧
    (Ppu.step^[WARM_UP_TIME + 1] Ppu.power_on).mode = PpuMode.ready ∧
    (∀ p : Ppu, p.mode = PpuMode.ready → (p.step).mode = PpuMode.ready) ∧
    (∀ (p : Ppu) (data : Nat), p.mode = PpuMode.idling →
      (p.writeReg PpuRegs.Ctrl data).regs.ctrl = p.regs.ctrl ∧
      (p.writeReg PpuRegs.Mask data).regs.mask = p.regs.mask ∧
      (p.writeReg PpuRegs.Scroll data).regs.scroll = p.regs.scroll ∧
      (p.writeReg PpuRegs.PpuAddr data).regs.addr = p.regs.addr ∧
      (p.writeReg PpuRegs.PpuData data).regs.data = p.regs.data ∧
      (p.writeReg PpuRegs.Ctrl data).regs.databus = data ∧
      (p.writeReg PpuRegs.OamAddr data).regs.oam_addr = data ∧
      (p.writeReg PpuRegs.OamData data).regs.oam_data = data) ∧
    (∀ (p : Ppu) (data : Nat), p.mode = PpuMode.ready →
      (p.writeReg PpuRegs.Ctrl data).regs.ctrl = data ∧
      (p.writeReg PpuRegs.Mask data).regs.mask = data ∧
      (p.writeReg PpuRegs.Scroll data).regs.scroll = data ∧
      (p.writeReg PpuRegs.PpuAddr data).regs.addr = data ∧
      (p.writeReg PpuRegs.PpuData data).regs.data = data ∧
      (p.writeReg PpuRegs.OamAddr data).regs.oam_addr = data ∧
      (p.writeReg PpuRegs.OamData data).regs.oam_data = data) := by
  refine ⟨fun n hn => (ppu_idling_upto n hn).1, ?_, ?_, ?_, ?_⟩
  · obtain ⟨hm, hc⟩ := ppu_idling_upto WARM_UP_TIME (Nat.le_refl _)
    rw [Function.iterate_succ_apply']
    exact ppu_ready_transition _ hm hc
  · intro p hp
    simp [Ppu.step, Ppu.step_ready, hp]
  · intro p data hp
    refine ⟨?_, ?_, ?_, ?_, ?_, ?_, ?_, ?_⟩ <;>
      simp [Ppu.writeReg, Ppu.write_idling, hp]
  · intro p data hp
    refine ⟨?_, ?_, ?_, ?_, ?_, ?_, ?_⟩ <;>
      simp [Ppu.writeReg, Ppu.write_ready, hp]

/-- Witness for C10: concrete instances of the quantified conjuncts. -/
theorem c10_warm_up_witness :
    (Ppu.step^[2] Ppu.power_on).mode = PpuMode.idling ∧
    (Ppu.writeReg ⟨PpuMode.idling, ⟨7, 0, 0, 0, 0, 0, 0, 0, 0, 0⟩, 5, true⟩
      PpuRegs.Ctrl 0x99).regs.ctrl = 7 ∧
    (Ppu.writeReg ⟨PpuMode.ready, ⟨7, 0, 0, 0, 0, 0, 0, 0, 0, 0⟩, 99999,
      false⟩ PpuRegs.Ctrl 0x99).regs.ctrl = 0x99 ∧
    (Ppu.step ⟨PpuMode.ready, ⟨0, 0, 0, 0, 0, 0, 0, 0, 0, 0⟩, 99999,
      false⟩).mode = PpuMode.ready := by
  refine ⟨c10_warm_up.1 2 (by decide), ?_, ?_, ?_⟩
  · exact (c10_warm_up.2.2.2.1 ⟨PpuMode.idling,
      ⟨7, 0, 0, 0, 0, 0, 0, 0, 0, 0⟩, 5, true⟩ 0x99 rfl).1
  · exact (c10_warm_up.2.2.2.2 ⟨PpuMode.ready,
      ⟨7, 0, 0, 0, 0, 0, 0, 0, 0, 0⟩, 99999, false⟩ 0x99 rfl).1
  · exact c10_warm_up.2.2.1 ⟨PpuMode.ready,
      ⟨0, 0, 0, 0, 0, 0, 0, 0, 0, 0⟩, 99999, false⟩ rfl

/-- C1: over any state-step function `f` (the CPU's fn_step pointer),
one Cpu::step polls the interrupt latches exactly when, after the bump
and the dispatch, polling is enabled, the pending slot is empty, and
`last_cycle - counter == 1` (the cycle before the instruction's last):
when that gate is false the step changes nothing beyond the dispatch;
when it is true, an asserted Reset or NMI latch is recorded in the slot
(and cleared) with priority Reset over NMI, an asserted IRQ latch is
recorded only when the InterruptDisable flag is clear, and with
InterruptDisable set (or no latch asserted) the slot stays empty.
On the EXEC-to-FETCH transition, Cpu::switch_state_fetch routes to the
INTERRUPT state when the slot is non-empty - selecting int_step,
disabling polling and transferring the kind - except that when the
force-delay flag is set, only the flag is cleared and one more fetch
proceeds with the slot intact. -/
theorem c1_interrupt_polling :
    (∀ (f : Cpu → Cpu) (c0 : Cpu),
      let c := f c0.bump
      let r := Cpu.step_with f c0
      let gate := c.int_polling_enabled &&
        decide (c.int_requested.kind = IntType.none) &&
        decide ((c.state.last_cycle % 256 + 256 - c.state.counter % 256) % 256
          = 1)
      (gate = false → r = c) ∧
      (gate = true → c.reset_occurred = true →
        r.int_requested = ⟨IntType.reset, false⟩ ∧
        r.reset_occurred = false) ∧
      (gate = true → c.reset_occurred = false → c.nmi_occurred = true →
        r.int_requested = ⟨IntType.nmi, false⟩ ∧ r.nmi_occurred = false) ∧
      (gate = true → c.reset_occurred = false → c.nmi_occurred = false →
        c.irq_occurred = true → c.regs.int_disabled = false →
        r.int_requested = ⟨IntType.irq, false⟩) ∧
      (gate = true → c.reset_occurred = false → c.nmi_occurred = false →
        c.regs.int_disabled = true →
        r = c ∧ r.int_requested.kind = IntType.none) ∧
      (gate = true → c.reset_occurred = false → c.nmi_occurred = false →
        c.irq_occurred = false → r = c)) ∧
    (∀ c1 : Cpu, c1.int_requested.kind ≠ IntType.none →
      c1.int_requested.is_force_delayed = false →
      (c1.switch_state_fetch).fn_step = FnState.intStep ∧
      (c1.switch_state_fetch).int_polling_enabled = false ∧
      (c1.switch_state_fetch).state.int = c1.int_requested.kind ∧
      (c1.switch_state_fetch).int_requested = Interrupt.default) ∧
    (∀ c1 : Cpu, c1.int_requested.kind ≠ IntType.none →
      c1.int_requested.is_force_delayed = true →
      (c1.switch_state_fetch).fn_step = FnState.fetchStep ∧
      (c1.switch_state_fetch).int_requested =
        ⟨c1.int_requested.kind, false⟩) ∧
    (∀ c1 : Cpu, c1.int_requested.kind = IntType.none →
      (c1.switch_state_fetch).fn_step = FnState.fetchStep ∧
      (c1.switch_state_fetch).int_requested = c1.int_requested) := by
  refine ⟨?_, ?_, ?_, ?_⟩
  · intro f c0
    refine ⟨?_, ?_, ?_, ?_, ?_, ?_⟩
    · intro hg
      simp only [Cpu.step_with, Cpu.poll_gate, hg, Bool.false_eq_true,
        if_false]
    · intro hg hr
      constructor <;>
        simp [Cpu.step_with, Cpu.poll_gate, hg, Cpu.check_int,
          Cpu.resolve_int_type, hr]
    · intro hg hr hn
      constructor <;>
        simp [Cpu.step_with, Cpu.poll_gate, hg, Cpu.check_int,
          Cpu.resolve_int_type, hr, hn]
    · intro hg hr hn hq hd
      simp [Cpu.step_with, Cpu.poll_gate, hg, Cpu.check_int,
        Cpu.resolve_int_type, hr, hn, hq, hd]
    · intro hg hr hn hd
      have hg2 := hg
      simp only [Bool.and_eq_true, decide_eq_true_eq] at hg2
      refine ⟨?_, ?_⟩
      · simp [Cpu.step_with, Cpu.poll_gate, hg, Cpu.check_int, hr, hn, hd]
      · simp [Cpu.step_with, Cpu.poll_gate, hg, Cpu.check_int, hr, hn, hd,
          hg2.1.2]
    · intro hg hr hn hq
      simp [Cpu.step_with, Cpu.poll_gate, hg, Cpu.check_int, hr, hn, hq]
  · intro c1 hk hf
    refine ⟨?_, ?_, ?_, ?_⟩ <;>
      simp [Cpu.switch_state_fetch, Cpu.switch_state_int, hk, hf]
  · intro c1 hk hf
    constructor <;> simp [Cpu.switch_state_fetch, hk, hf]
  · intro c1 hk
    constructor <;> simp [Cpu.switch_state_fetch, hk]

/-- Witness for C1: with polling enabled, an empty slot, the counter one
short of the last cycle, a raised IRQ line and InterruptDisable clear,
the step records the IRQ; and a pending NMI without the delay flag
routes the fetch transition to the interrupt state. -/
theorem c1_interrupt_polling_witness :
    (Cpu.step_with id ⟨fun _ => 0, 0, ⟨0, 0, 0, 0xFD, 0x20, 0⟩, false,
        false, true, true, FnState.execStep, Interrupt.default,
        ⟨2, 0, 0, IntType.none, 4⟩, false⟩).int_requested =
      ⟨IntType.irq, false⟩ ∧
    (Cpu.switch_state_fetch ⟨fun _ => 0, 0, ⟨0, 0, 0, 0xFD, 0x20, 0⟩,
        false, false, false, true, FnState.execStep, ⟨IntType.nmi, false⟩,
        TmpState.default, false⟩).fn_step = FnState.intStep := by
  constructor
  · exact (c1_interrupt_polling.1 id ⟨fun _ => 0, 0,
      ⟨0, 0, 0, 0xFD, 0x20, 0⟩, false, false, true, true,
      FnState.execStep, Interrupt.default, ⟨2, 0, 0, IntType.none, 4⟩,
      false⟩).2.2.2.1 (by decide) (by decide) (by decide) (by decide)
      (by decide)
  · exact ((c1_interrupt_polling.2.1 ⟨fun _ => 0, 0,
      ⟨0, 0, 0, 0xFD, 0x20, 0⟩, false, false, false, true,
      FnState.execStep, ⟨IntType.nmi, false⟩, TmpState.default,
      false⟩) (by decide) (by decide)).1

end FamiRust
